import Mathlib

/-!
Verification of `superset/tasks/schedules.py` (email-report scheduling and
delivery pipeline) against its natural-language specification.

Shallow embedding conventions:
* instants of time are integers counting whole seconds (`Int`), matching the
  second-granularity `datetime` arithmetic of the source
  (`timedelta(seconds=1)`, `timedelta(days=1) = 86400 s`);
* the external cron library `croniter` is abstracted by an arbitrary fire
  predicate `fires : Int → Bool`; `croniter(crontab, seed).all_next(datetime)`
  enumerates the fire instants strictly after `seed` in strictly increasing
  order, which `cron_all_next` reproduces (truncated at `stop`, sound because
  the consuming loop in `next_schedules` breaks at the first instant `≥ stop`);
* fallible Python calls are embedded as `Except`-valued functions, and
  functions with observable external calls return an explicit trace (list of
  the calls made) alongside their result.
-/

namespace SupersetSchedules

/-- The fire instants of the cron predicate `fires` that lie strictly between
`seed` and `stop`, in strictly increasing order.  This embeds the prefix of
`croniter(crontab, seed).all_next(datetime)` that `next_schedules` actually
consumes: the generator yields instants strictly after its seed in increasing
order, and the consuming loop terminates at the first instant `≥ stop`. -/
def cron_all_next (fires : Int → Bool) (seed stop : Int) : List Int :=
  ((List.range (stop - seed - 1).toNat).map
    (fun i : Nat => seed + 1 + (i : Int))).filter fires

/-- The loop body of `next_schedules` (schedules.py lines 528-541): for each
successive cron instant `eta`, break when `eta ≥ stop_at`, skip when
`eta < start_at`, skip when `eta - previous < resolution` (debounce), and
otherwise yield `eta` and set `previous := eta`. -/
def nextSchedulesLoop (start_at stop_at resolution : Int) :
    List Int → Int → List Int
  | [], _ => []
  | eta :: rest, previous =>
    if stop_at ≤ eta then []
    else if eta < start_at then
      nextSchedulesLoop start_at stop_at resolution rest previous
    else if eta - previous < resolution then
      nextSchedulesLoop start_at stop_at resolution rest previous
    else eta :: nextSchedulesLoop start_at stop_at resolution rest eta

/-- `next_schedules(crontab, start_at, stop_at, resolution)`
(schedules.py lines 522-541): seed the cron iterator at `start_at - 1` second,
start with `previous = start_at - 1` day (= 86400 s), and run the yield loop. -/
def next_schedules (fires : Int → Bool) (start_at stop_at : Int)
    (resolution : Int) : List Int :=
  nextSchedulesLoop start_at stop_at resolution
    (cron_all_next fires (start_at - 1) stop_at) (start_at - 86400)

/-! Basic facts about `cron_all_next`. -/

theorem mem_cron_all_next {fires : Int → Bool} {seed stop x : Int} :
    x ∈ cron_all_next fires seed stop ↔
      (seed < x ∧ x < stop ∧ fires x = true) := by
  unfold cron_all_next
  simp only [List.mem_filter, List.mem_map, List.mem_range]
  constructor
  · rintro ⟨⟨i, hi, rfl⟩, hf⟩
    exact ⟨by omega, by omega, hf⟩
  · rintro ⟨h1, h2, hf⟩
    exact ⟨⟨(x - seed - 1).toNat, by omega, by omega⟩, hf⟩

theorem cron_all_next_sorted (fires : Int → Bool) (seed stop : Int) :
    (cron_all_next fires seed stop).Pairwise (· < ·) := by
  unfold cron_all_next
  refine List.Pairwise.filter _ ?_
  exact List.Pairwise.map _ (fun a b h => by omega) (List.pairwise_lt_range _)

/-! Behaviour of the yield loop. -/

theorem nextSchedulesLoop_mem (s e r : Int) :
    ∀ (l : List Int) (prev x : Int), x ∈ nextSchedulesLoop s e r l prev →
      x ∈ l ∧ s ≤ x ∧ x < e := by
  intro l
  induction l with
  | nil => intro prev x hx; simp [nextSchedulesLoop] at hx
  | cons eta rest ih =>
    intro prev x hx
    simp only [nextSchedulesLoop] at hx
    split_ifs at hx with h1 h2 h3
    · simp at hx
    · rcases ih prev x hx with ⟨hm, hb⟩
      exact ⟨List.mem_cons_of_mem _ hm, hb⟩
    · rcases ih prev x hx with ⟨hm, hb⟩
      exact ⟨List.mem_cons_of_mem _ hm, hb⟩
    · rcases List.mem_cons.mp hx with rfl | hx'
      · exact ⟨List.mem_cons_self _ _, by omega, by omega⟩
      · rcases ih eta x hx' with ⟨hm, hb⟩
        exact ⟨List.mem_cons_of_mem _ hm, hb⟩

theorem nextSchedulesLoop_chain (s e r : Int) :
    ∀ (l : List Int), l.Pairwise (· < ·) → ∀ prev : Int,
      (nextSchedulesLoop s e r l prev).Chain' (fun a b => a < b ∧ r ≤ b - a) ∧
      (∀ y, (nextSchedulesLoop s e r l prev).head? = some y →
        r ≤ y - prev ∧ y ∈ l) := by
  intro l
  induction l with
  | nil => intro _ prev; simp [nextSchedulesLoop]
  | cons eta rest ih =>
    intro hpw prev
    rcases List.pairwise_cons.mp hpw with ⟨hlt, hrest⟩
    simp only [nextSchedulesLoop]
    split_ifs with h1 h2 h3
    · simp
    · rcases ih hrest prev with ⟨hc, hh⟩
      refine ⟨hc, fun y hy => ?_⟩
      rcases hh y hy with ⟨hr, hm⟩
      exact ⟨hr, List.mem_cons_of_mem _ hm⟩
    · rcases ih hrest prev with ⟨hc, hh⟩
      refine ⟨hc, fun y hy => ?_⟩
      rcases hh y hy with ⟨hr, hm⟩
      exact ⟨hr, List.mem_cons_of_mem _ hm⟩
    · rcases ih hrest eta with ⟨hc, hh⟩
      constructor
      · refine List.chain'_cons'.mpr ⟨fun y hy => ?_, hc⟩
        rcases hh y hy with ⟨hr, hm⟩
        exact ⟨hlt y hm, hr⟩
      · intro y hy
        simp only [List.head?_cons, Option.some.injEq] at hy
        subst hy
        exact ⟨by omega, List.mem_cons_self _ _⟩

theorem nextSchedulesLoop_zero (s e : Int) :
    ∀ l : List Int, l.Pairwise (· < ·) → (∀ x ∈ l, s ≤ x ∧ x < e) →
      ∀ prev : Int, (∀ x ∈ l, prev < x) →
      nextSchedulesLoop s e 0 l prev = l := by
  intro l
  induction l with
  | nil => intro _ _ prev _; simp [nextSchedulesLoop]
  | cons eta rest ih =>
    intro hpw hb prev hprev
    rcases List.pairwise_cons.mp hpw with ⟨hlt, hrest⟩
    rcases hb eta (List.mem_cons_self _ _) with ⟨hs, he⟩
    have hp := hprev eta (List.mem_cons_self _ _)
    simp only [nextSchedulesLoop]
    rw [if_neg (by omega), if_neg (by omega), if_neg (by omega)]
    exact congrArg (eta :: ·)
      (ih hrest (fun x hx => hb x (List.mem_cons_of_mem _ hx)) eta hlt)

theorem cron_all_next_head_mem {fires : Int → Bool} {seed stop eta0 : Int}
    (h : (cron_all_next fires seed stop).head? = some eta0) :
    seed < eta0 ∧ eta0 < stop ∧ fires eta0 = true := by
  have : eta0 ∈ cron_all_next fires seed stop := by
    cases hl : cron_all_next fires seed stop with
    | nil => rw [hl] at h; simp at h
    | cons a t =>
      rw [hl] at h
      simp only [List.head?_cons, Option.some.injEq] at h
      subst h; exact List.mem_cons_self _ _
  exact mem_cron_all_next.mp this

/-- Sorted list: a member that bounds every member from below is the head. -/
theorem head_of_sorted_mem {l : List Int} (hpw : l.Pairwise (· < ·))
    {a : Int} (hm : a ∈ l) (hlb : ∀ x ∈ l, a ≤ x) : l.head? = some a := by
  cases l with
  | nil => simp at hm
  | cons b t =>
    rcases List.pairwise_cons.mp hpw with ⟨hlt, _⟩
    rcases List.mem_cons.mp hm with rfl | hmt
    · rfl
    · have h1 := hlt a hmt
      have h2 := hlb b (List.mem_cons_self _ _)
      omega

/-- C1 (amended): `next_schedules` never yields an instant `≥ stop_at`; it
yields `start_at` first whenever the cron fires at `start_at`, the window is
nonempty and `resolution ≤ 86400` (one day, the debounce sentinel gap); and an
empty window (`stop_at ≤ start_at`) yields nothing. -/
theorem next_schedules_window (fires : Int → Bool) (s e r : Int) :
    (∀ x ∈ next_schedules fires s e r, x < e) ∧
    (fires s = true → s < e → r ≤ 86400 →
      (next_schedules fires s e r).head? = some s) ∧
    (e ≤ s → next_schedules fires s e r = []) := by
  refine ⟨fun x hx => (nextSchedulesLoop_mem s e r _ _ x hx).2.2, ?_, ?_⟩
  · intro hf hse hr
    have hmem : s ∈ cron_all_next fires (s - 1) e :=
      mem_cron_all_next.mpr ⟨by omega, hse, hf⟩
    have hhead : (cron_all_next fires (s - 1) e).head? = some s := by
      refine head_of_sorted_mem (cron_all_next_sorted fires _ _) hmem ?_
      intro x hx
      have := mem_cron_all_next.mp hx
      omega
    unfold next_schedules
    cases hl : cron_all_next fires (s - 1) e with
    | nil => rw [hl] at hhead; simp at hhead
    | cons a t =>
      rw [hl] at hhead
      simp only [List.head?_cons, Option.some.injEq] at hhead
      subst hhead
      simp only [nextSchedulesLoop]
      rw [if_neg (by omega), if_neg (by omega), if_neg (by omega)]
      rfl
  · intro hes
    unfold next_schedules
    have : cron_all_next fires (s - 1) e = [] := by
      cases hl : cron_all_next fires (s - 1) e with
      | nil => rfl
      | cons a t =>
        have : a ∈ cron_all_next fires (s - 1) e := by
          rw [hl]; exact List.mem_cons_self _ _
        have := mem_cron_all_next.mp this
        omega
    rw [this]
    rfl

/-- Witness for C1's theorem at concrete inputs. -/
theorem next_schedules_window_witness :
    ((0 : Int) < 2) ∧
    ((next_schedules (fun _ => true) 0 2 0).head? = some 0) ∧
    (next_schedules (fun _ => true) 5 3 0 = []) :=
  ⟨(next_schedules_window (fun _ => true) 0 2 0).1 0 (by decide),
   (next_schedules_window (fun _ => true) 0 2 0).2.1 rfl (by decide) (by decide),
   (next_schedules_window (fun _ => true) 5 3 0).2.2 (by decide)⟩

/-- Counterexample to C1 as stated: with `resolution = 86401` (> 1 day), the
cron fires at `start_at = 0` inside the nonempty window `[0, 1)`, yet
`next_schedules` yields nothing — the debounce against the sentinel
`previous = start_at - 86400` suppresses the instant at `start_at`. -/
theorem next_schedules_c1_counterexample :
    (fun t : Int => t == 0) 0 = true ∧ (0 : Int) < 1 ∧
    next_schedules (fun t : Int => t == 0) 0 1 86401 = [] := by decide

/-- C2: consecutively yielded instants are strictly increasing and at least
`resolution` seconds apart, and `resolution = 0` disables debouncing: the
yield sequence is then exactly the cron fire instants in `[start_at, stop_at)`. -/
theorem next_schedules_debounce (fires : Int → Bool) (s e r : Int) :
    (next_schedules fires s e r).Chain' (fun a b => a < b ∧ r ≤ b - a) ∧
    (∀ x : Int, x ∈ next_schedules fires s e 0 ↔
      (fires x = true ∧ s ≤ x ∧ x < e)) := by
  constructor
  · exact (nextSchedulesLoop_chain s e r _
      (cron_all_next_sorted fires (s - 1) e) (s - 86400)).1
  · intro x
    have hid : next_schedules fires s e 0 = cron_all_next fires (s - 1) e := by
      unfold next_schedules
      refine nextSchedulesLoop_zero s e _ (cron_all_next_sorted fires _ _)
        (fun y hy => ?_) _ (fun y hy => ?_)
      · have := mem_cron_all_next.mp hy; omega
      · have := mem_cron_all_next.mp hy; omega
    rw [hid, mem_cron_all_next]
    constructor
    · rintro ⟨h1, h2, h3⟩; exact ⟨h3, by omega, h2⟩
    · rintro ⟨h1, h2, h3⟩; exact ⟨by omega, h3, h1⟩

/-- C3 (amended): whenever `resolution ≤ 86400`, the first cron instant inside
the window `[start_at, stop_at)` is always the first yielded instant — the
sentinel `previous = start_at - 1 day` keeps it clear of the debounce. -/
theorem next_schedules_first_instant (fires : Int → Bool) (s e r eta0 : Int)
    (hr : r ≤ 86400)
    (h : (cron_all_next fires (s - 1) e).head? = some eta0) :
    (next_schedules fires s e r).head? = some eta0 := by
  rcases cron_all_next_head_mem h with ⟨h1, h2, _⟩
  unfold next_schedules
  cases hl : cron_all_next fires (s - 1) e with
  | nil => rw [hl] at h; simp at h
  | cons a t =>
    rw [hl] at h
    simp only [List.head?_cons, Option.some.injEq] at h
    subst h
    simp only [nextSchedulesLoop]
    rw [if_neg (by omega), if_neg (by omega), if_neg (by omega)]
    rfl

/-- Witness for C3's amended theorem at concrete inputs. -/
theorem next_schedules_first_instant_witness :
    ((0 : Int) ≤ 86400) ∧
    ((cron_all_next (fun _ => true) (1 - 1) 3).head? = some 1) ∧
    (next_schedules (fun _ => true) 1 3 0).head? = some 1 :=
  ⟨by decide, by decide,
   next_schedules_first_instant (fun _ => true) 1 3 0 1 (by decide) (by decide)⟩

/-- Counterexample to C3 as stated: the sentinel does NOT protect the first
candidate for every `resolution`.  With a cron firing every second, window
`[0, 1)` and `resolution = 100000 > 86400`, the first (and only) in-window
cron instant `0` is suppressed by the debounce check and nothing is yielded. -/
theorem next_schedules_c3_counterexample :
    (cron_all_next (fun _ => true) (0 - 1) 1).head? = some 0 ∧
    next_schedules (fun _ => true) 0 1 100000 = [] := by decide

/-!
Email fan-out (`_get_email_to_and_bcc`, `_deliver_email`,
schedules.py lines 84-126).  The external helper
`get_email_address_list` (superset.utils.core) is abstracted as a parameter
`parse : String → List String`; `send_email_smtp` is abstracted by the
per-target success predicate `sendOk` (an exception raised by a send is an
`Except.error` naming the failing "to" target).  The first trace component
lists the `(to, bcc)` pairs for which a send call was actually made.
-/

/-- `_get_email_to_and_bcc(recipients, deliver_as_group)`: one `(to, bcc)`
pair with the full recipient string when delivering as a group, otherwise one
pair per parsed address, in order; `bcc` is the configured
`EMAIL_REPORT_BCC_ADDRESS` in every pair. -/
def _get_email_to_and_bcc (bcc : String) (parse : String → List String)
    (recipients : String) (deliver_as_group : Bool) : List (String × String) :=
  if deliver_as_group then [(recipients, bcc)]
  else (parse recipients).map (fun t => (t, bcc))

/-- The `for (to, bcc) in ...: send_email_smtp(...)` loop of `_deliver_email`:
each send is attempted in order; a raising send (here `sendOk to = false`)
terminates the loop at once and the exception propagates. -/
def deliverEmailLoop (sendOk : String → Bool) :
    List (String × String) → List (String × String) × Except String Unit
  | [] => ([], Except.ok ())
  | (t, bcc) :: rest =>
    if sendOk t then
      let r := deliverEmailLoop sendOk rest
      ((t, bcc) :: r.1, r.2)
    else ([(t, bcc)], Except.error t)

/-- `_deliver_email(recipients, deliver_as_group, ...)` (schedules.py lines
107-126): iterate `_get_email_to_and_bcc` and call `send_email_smtp` for each
yielded pair. -/
def _deliver_email (sendOk : String → Bool) (parse : String → List String)
    (bcc recipients : String) (deliver_as_group : Bool) :
    List (String × String) × Except String Unit :=
  deliverEmailLoop sendOk (_get_email_to_and_bcc bcc parse recipients deliver_as_group)

theorem deliverEmailLoop_map_spec (sendOk : String → Bool) (bcc : String) :
    ∀ tos : List String,
      deliverEmailLoop sendOk (tos.map (fun t => (t, bcc))) =
        ((tos.takeWhile sendOk ++ (tos.dropWhile sendOk).take 1).map
            (fun t => (t, bcc)),
         match (tos.dropWhile sendOk).head? with
         | none => Except.ok ()
         | some t => Except.error t) := by
  intro tos
  induction tos with
  | nil => rfl
  | cons t ts ih =>
    cases h : sendOk t with
    | true =>
      simp only [List.map_cons, deliverEmailLoop, h, if_true, ih,
        List.takeWhile_cons, List.dropWhile_cons, List.map_append]
      rfl
    | false =>
      simp only [List.map_cons, deliverEmailLoop, h, if_false,
        List.takeWhile_cons, List.dropWhile_cons]
      simp [h]

/-- C5 (amended): with `deliver_as_group = false`, the sends are attempted in
parsed order, but they are NOT independent: the loop attempts sends up to and
including the first failing recipient, the remaining recipients are never
attempted, and the failure is surfaced by immediate propagation of the
exception (naming the failing recipient). -/
theorem deliver_email_sequential_abort (sendOk : String → Bool)
    (parse : String → List String) (bcc recipients : String) :
    _deliver_email sendOk parse bcc recipients false =
      (((parse recipients).takeWhile sendOk ++
          ((parse recipients).dropWhile sendOk).take 1).map (fun t => (t, bcc)),
       match ((parse recipients).dropWhile sendOk).head? with
       | none => Except.ok ()
       | some t => Except.error t) := by
  unfold _deliver_email _get_email_to_and_bcc
  rw [if_neg (by simp)]
  exact deliverEmailLoop_map_spec sendOk bcc (parse recipients)

/-- Counterexample to C5 as stated: two parsed recipients `a@x, b@x`; the send
to `a@x` raises.  The attempted-send trace is `[(a@x, bcc)]` only — the send to
`b@x` is never attempted — and the exception propagates to the caller. -/
theorem deliver_email_c5_counterexample :
    (fun _ : String => ["a@x", "b@x"]) "a@x, b@x" = ["a@x", "b@x"] ∧
    _deliver_email (fun t => t != "a@x") (fun _ => ["a@x", "b@x"])
        "bcc@x" "a@x, b@x" false =
      ([("a@x", "bcc@x")], Except.error "a@x") := by
  constructor
  · rfl
  · rfl

/-- C9: with `deliver_as_group = true` exactly one send call is made, whose
"to" target is the full unparsed recipient string; with
`deliver_as_group = false` (and no send failing) exactly one send call is made
per parsed address, in order; every call carries the configured BCC address. -/
theorem deliver_email_fanout (sendOk : String → Bool)
    (parse : String → List String) (bcc recipients : String) :
    ((_deliver_email sendOk parse bcc recipients true).1 = [(recipients, bcc)]) ∧
    ((∀ t ∈ parse recipients, sendOk t = true) →
      (_deliver_email sendOk parse bcc recipients false).1 =
        (parse recipients).map (fun t => (t, bcc))) := by
  constructor
  · unfold _deliver_email _get_email_to_and_bcc
    rw [if_pos rfl]
    cases h : sendOk recipients <;> simp [deliverEmailLoop, h]
  · intro hall
    rw [deliver_email_sequential_abort]
    have h1 : (parse recipients).takeWhile sendOk = parse recipients :=
      List.takeWhile_eq_self_iff.mpr hall
    have h2 : (parse recipients).dropWhile sendOk = [] :=
      List.dropWhile_eq_nil_iff.mpr hall
    rw [h1, h2]
    simp

/-- Witness for C9's theorem at concrete inputs (three parsed addresses). -/
theorem deliver_email_fanout_witness :
    ((_deliver_email (fun _ => true) (fun _ => ["a", "b", "c"])
        "bcc" "a, b, c" true).1 = [("a, b, c", "bcc")]) ∧
    ((_deliver_email (fun _ => true) (fun _ => ["a", "b", "c"])
        "bcc" "a, b, c" false).1 = [("a", "bcc"), ("b", "bcc"), ("c", "bcc")]) :=
  ⟨(deliver_email_fanout (fun _ => true) (fun _ => ["a", "b", "c"])
      "bcc" "a, b, c").1,
   (deliver_email_fanout (fun _ => true) (fun _ => ["a", "b", "c"])
      "bcc" "a, b, c").2 (by decide)⟩

/-!
Slack delivery (`_deliver_slack`, schedules.py lines 97-104).  The function is
wrapped in `@retry(SlackApiError, delay=10, backoff=2, tries=5)` from the
`retry` library: the decorated call is attempted up to `tries` times in total;
a raised `SlackApiError` with attempts remaining triggers `sleep(delay)` and
`delay *= backoff` before the next attempt, any other exception (in particular
the `assert response["file"]` failure) propagates immediately, and after the
final failing attempt the exception propagates.  The external Slack client is
abstracted by the per-attempt behaviour `behaviour : Nat → SlackOutcome`.
-/

/-- Observable behaviour of one `client.files_upload` attempt. -/
inductive SlackOutcome
  | apiError      -- `files_upload` raises `SlackApiError`
  | missingFile   -- upload returns but `response["file"]` is falsy
  | uploaded      -- upload returns with the uploaded-file handle present
  deriving DecidableEq

/-- The exception leaving one attempt of the `_deliver_slack` body. -/
inductive SlackFailure
  | slackApiError
  | assertionError
  deriving DecidableEq

/-- The body of `_deliver_slack` for one attempt (schedules.py lines 98-104):
upload the file, then `assert response["file"]` (an absent handle raises
`AssertionError`, which the retry decorator does not catch). -/
def deliverSlackOnce (behaviour : Nat → SlackOutcome) (i : Nat) :
    Except SlackFailure Unit :=
  match behaviour i with
  | .apiError => Except.error .slackApiError
  | .missingFile => Except.error .assertionError
  | .uploaded => Except.ok ()

/-- The `retry` decorator with parameters (retryable-error predicate, delay,
backoff, tries): returns (number of attempts made, list of sleep durations in
order, final result).  `i` indexes the attempts into `behaviour`. -/
def retryRun (f : Nat → Except SlackFailure Unit)
    (retryable : SlackFailure → Bool) (backoff : Nat) :
    (tries : Nat) → (delay : Nat) → (i : Nat) →
      Nat × List Nat × Except SlackFailure Unit
  | 0, _, _ => (0, [], Except.ok ())  -- `while _tries:` body never runs
  | t + 1, delay, i =>
    match f i with
    | Except.ok u => (1, [], Except.ok u)
    | Except.error e =>
      if retryable e then
        if t = 0 then (1, [], Except.error e)
        else
          let r := retryRun f retryable backoff t (delay * backoff) (i + 1)
          (r.1 + 1, delay :: r.2.1, r.2.2)
      else (1, [], Except.error e)

/-- `_deliver_slack` under its decorator
`@retry(SlackApiError, delay=10, backoff=2, tries=5)`. -/
def _deliver_slack (behaviour : Nat → SlackOutcome) :
    Nat × List Nat × Except SlackFailure Unit :=
  retryRun (deliverSlackOnce behaviour)
    (fun e => match e with | .slackApiError => true | _ => false) 2 5 10 0

/-- C6 (amended): if every upload attempt raises the transient
`SlackApiError`, exactly 5 attempts are made, separated by the four backoff
sleeps 10, 20, 40, 80, after which the error propagates; an upload whose
response lacks the uploaded-file handle raises an assertion failure that is
not retried (one attempt, no sleeps). -/
theorem deliver_slack_retry (behaviour : Nat → SlackOutcome) :
    ((∀ i, behaviour i = .apiError) →
      _deliver_slack behaviour =
        (5, [10, 20, 40, 80], Except.error .slackApiError)) ∧
    (behaviour 0 = .missingFile →
      _deliver_slack behaviour = (1, [], Except.error .assertionError)) := by
  constructor
  · intro h
    simp [_deliver_slack, retryRun, deliverSlackOnce, h 0, h 1, h 2, h 3, h 4]
  · intro h
    simp [_deliver_slack, retryRun, deliverSlackOnce, h]

/-- Witness for C6's amended theorem at concrete behaviours. -/
theorem deliver_slack_retry_witness :
    (_deliver_slack (fun _ => .apiError) =
      (5, [10, 20, 40, 80], Except.error .slackApiError)) ∧
    ((fun _ : Nat => SlackOutcome.missingFile) 0 = SlackOutcome.missingFile ∧
      _deliver_slack (fun _ => .missingFile) =
        (1, [], Except.error .assertionError)) :=
  ⟨(deliver_slack_retry (fun _ => .apiError)).1 (fun _ => rfl),
   ⟨rfl, (deliver_slack_retry (fun _ => .missingFile)).2 rfl⟩⟩

/-- Counterexample to C6 as stated: five total attempts are separated by only
four backoff sleeps — 10, 20, 40, 80 — not by the five delays
(10, 20, 40, 80, 160) the claim lists. -/
theorem deliver_slack_c6_counterexample :
    _deliver_slack (fun _ => .apiError) =
      (5, [10, 20, 40, 80], Except.error .slackApiError) ∧
    ([10, 20, 40, 80] : List Nat) ≠ [10, 20, 40, 80, 160] := by
  exact ⟨rfl, by decide⟩

/-!
Report content building (`_generate_report_content`, schedules.py lines
129-170, and `_get_slice_data`, lines 336-388).  `EmailDeliveryType` and
`SliceEmailReportFormat` are the two-valued enums of
`superset.models.schedules` consumed here.  Template rendering is kept
structural: an email body is one of the three template shapes the source can
produce.  `make_msgid(domain)[1:-1]` (stdlib, nondeterministic) is abstracted
as a parameter applied to the domain of the configured sender address;
`parseaddr(config["SMTP_MAIL_FROM"])[1]` is the `mail_from` parameter.  CSV
parsing (`content.splitlines()` / `split(b",")`) is embedded over byte lists,
with line splitting modelled on the LF terminator.
-/

inductive EmailDeliveryType
  | attachment
  | inline
  deriving DecidableEq

inductive SliceEmailReportFormat
  | data
  | visualization
  deriving DecidableEq

/-- The three body-template shapes of the source: the bare "Explore in
Superset" link (attachment branches), the link plus `<img src="cid:msgid">`
(inline visual branch), and the rendered `slice_data.html` table (inline
tabular branch). -/
inductive EmailBody
  | explore_link (name url : String)
  | explore_link_with_image (name url msgid : String)
  | slice_table (columns : List (List Nat)) (rows : List (List (List Nat)))
      (name link : String)
  deriving DecidableEq

/-- The `ReportContent` namedtuple (schedules.py lines 71-81). -/
structure ReportContent where
  body : EmailBody
  data : Option (List (String × List Nat))
  images : Option (List (String × List Nat))
  slack_message : String
  slack_attachment : List Nat
  deriving DecidableEq

/-- The slack markdown snippet built by both builders: bold title plus a
live "Explore in Superset" link. -/
def slackMessageFor (name url : String) : String :=
  "*" ++ name ++ "*\n<" ++ url ++ "|Explore in Superset>"

/-- `parseaddr(mail_from)[1].split("@")[1]`: the domain of the configured
sender address. -/
def sender_domain (mail_from : String) : String :=
  (mail_from.splitOn "@").getD 1 ""

/-- `_generate_report_content(delivery_type, screenshot, name, url)`
(schedules.py lines 129-170). -/
def _generate_report_content (make_msgid : String → String) (mail_from : String)
    (delivery_type : EmailDeliveryType) (screenshot : List Nat)
    (name url : String) : ReportContent :=
  let slack_message := slackMessageFor name url
  match delivery_type with
  | .attachment =>
    { body := .explore_link name url
      data := some [("screenshot.png", screenshot)]
      images := none
      slack_message := slack_message
      slack_attachment := screenshot }
  | .inline =>
    let msgid := make_msgid (sender_domain mail_from)
    { body := .explore_link_with_image name url msgid
      data := none
      images := some [(msgid, screenshot)]
      slack_message := slack_message
      slack_attachment := screenshot }

/-- Split a byte list on a separator byte, keeping empty chunks (the
behaviour of Python's `bytes.split`). -/
def splitOnByte (sep : Nat) : List Nat → List (List Nat)
  | [] => [[]]
  | b :: rest =>
    match splitOnByte sep rest with
    | [] => [[]]  -- unreachable: the result is always nonempty
    | h :: t => if b = sep then [] :: h :: t else (b :: h) :: t

/-- `bytes.splitlines()` modelled on the LF terminator: split on byte 10 and,
as Python does, produce no empty final line for a trailing terminator. -/
def splitlines (bs : List Nat) : List (List Nat) :=
  let parts := splitOnByte 10 bs
  if parts.getLast? = some [] then parts.dropLast else parts

/-- `rows = [r.split(b",") for r in content.splitlines()]`
(schedules.py line 358). -/
def parseCsvRows (content : List Nat) : List (List (List Nat)) :=
  (splitlines content).map (splitOnByte 44)

/-- `_get_slice_data(slc, delivery_type)` content construction (schedules.py
lines 336-388), given the fetched CSV bytes and the slice's name and
user-friendly URL: inline mode pops the first parsed row as the column
headers of the rendered HTML table; attachment mode attaches the raw bytes as
`<name>.csv`. -/
def _get_slice_data (delivery_type : EmailDeliveryType) (content : List Nat)
    (slice_name slice_url_user_friendly : String) : ReportContent :=
  let rows := parseCsvRows content
  let slack_message := slackMessageFor slice_name slice_url_user_friendly
  match delivery_type with
  | .inline =>
    { body := .slice_table (rows.headD []) rows.tail slice_name
        slice_url_user_friendly
      data := none
      images := none
      slack_message := slack_message
      slack_attachment := content }
  | .attachment =>
    { body := .explore_link slice_name slice_url_user_friendly
      data := some [(slice_name ++ ".csv", content)]
      images := none
      slack_message := slack_message
      slack_attachment := content }

def isTableBody : EmailBody → Bool
  | .slice_table .. => true
  | _ => false

/-- How many of \x7battachment mapping, inline-image mapping, html-table
body\x7d are populated on the email side of a `ReportContent`. -/
def emailPopulatedCount (rc : ReportContent) : Nat :=
  (if rc.data.isSome then 1 else 0) + (if rc.images.isSome then 1 else 0) +
    (if isTableBody rc.body then 1 else 0)

/-- C7: per (delivery mode, target kind) combination exactly one of the
email-side fields is populated — a named attachment for attachment mode, an
inline image keyed by a content-id derived from the sender domain for inline
visual targets, an HTML table body headed by the first parsed row for inline
tabular targets — while the chat-side message (title and live link) and raw
attachment bytes are populated on every call. -/
theorem report_content_mode_exclusivity (make_msgid : String → String)
    (mail_from : String) (shot content : List Nat) (name url : String) :
    ((_generate_report_content make_msgid mail_from .attachment shot name
        url).data = some [("screenshot.png", shot)] ∧
     (_generate_report_content make_msgid mail_from .attachment shot name
        url).images = none ∧
     isTableBody (_generate_report_content make_msgid mail_from .attachment
        shot name url).body = false) ∧
    ((_generate_report_content make_msgid mail_from .inline shot name
        url).images = some [(make_msgid (sender_domain mail_from), shot)] ∧
     (_generate_report_content make_msgid mail_from .inline shot name
        url).data = none ∧
     isTableBody (_generate_report_content make_msgid mail_from .inline shot
        name url).body = false) ∧
    ((_get_slice_data .attachment content name url).data =
        some [(name ++ ".csv", content)] ∧
     (_get_slice_data .attachment content name url).images = none ∧
     isTableBody (_get_slice_data .attachment content name url).body = false) ∧
    ((_get_slice_data .inline content name url).body =
        .slice_table ((parseCsvRows content).headD [])
          (parseCsvRows content).tail name url ∧
     (_get_slice_data .inline content name url).data = none ∧
     (_get_slice_data .inline content name url).images = none) ∧
    (∀ dt : EmailDeliveryType,
      emailPopulatedCount
        (_generate_report_content make_msgid mail_from dt shot name url) = 1 ∧
      emailPopulatedCount (_get_slice_data dt content name url) = 1) ∧
    (∀ dt : EmailDeliveryType,
      (_generate_report_content make_msgid mail_from dt shot name
        url).slack_message = slackMessageFor name url ∧
      (_generate_report_content make_msgid mail_from dt shot name
        url).slack_attachment = shot ∧
      (_get_slice_data dt content name url).slack_message =
        slackMessageFor name url ∧
      (_get_slice_data dt content name url).slack_attachment = content) := by
  refine ⟨⟨rfl, rfl, rfl⟩, ⟨rfl, rfl, rfl⟩, ⟨rfl, rfl, rfl⟩, ⟨rfl, rfl, rfl⟩,
    fun dt => ?_, fun dt => ?_⟩
  · cases dt <;> exact ⟨rfl, rfl⟩
  · cases dt <;> exact ⟨rfl, rfl, rfl, rfl⟩

/-!
Webdriver lifecycle (`destroy_webdriver`, schedules.py lines 242-258, and the
screenshot phase of `deliver_dashboard`, lines 281-302).  The selenium driver
is abstracted by the outcomes of its fallible calls.
-/

/-- Outcomes of the two teardown calls of a selenium driver. -/
structure Driver where
  close_result : Except String Unit
  quit_result : Except String Unit

/-- `retry_call(act, tries=2)` for a deterministic action: a second try of the
same action returns the same outcome, so the combined result is the action's
outcome. -/
def retry_call_twice (act : Except String Unit) : Except String Unit :=
  match act with
  | Except.ok u => Except.ok u
  | Except.error e => Except.error e

/-- `try: ... except Exception: pass`. -/
def pyTryPass (act : Except String Unit) : Except String Unit :=
  match act with
  | Except.ok _ => Except.ok ()
  | Except.error _ => Except.ok ()

/-- `destroy_webdriver(driver)` (schedules.py lines 242-258): best-effort
`close` (two tries, failures swallowed) then `quit` (failures swallowed). -/
def destroy_webdriver (d : Driver) : Except String Unit :=
  match pyTryPass (retry_call_twice d.close_result) with
  | Except.ok _ => pyTryPass d.quit_result
  | Except.error e => Except.error e

/-- Failure behaviour of the environment during the screenshot phase of
`deliver_dashboard`. -/
structure WebEnv where
  create_ok : Bool             -- `create_webdriver()` succeeds
  find_element_ok : Bool       -- `retry_call(find_element..., tries=2)` succeeds
  element_screenshot_ok : Bool -- `element.screenshot_as_png` (false raises WebDriverException)
  page_screenshot_ok : Bool    -- fallback `driver.screenshot()`
  deriving DecidableEq

inductive WebErr
  | createFailed
  | noSuchElement
  | webDriverError
  deriving DecidableEq

inductive WebEvent
  | created
  | destroyed
  | element_shot
  | page_shot
  deriving DecidableEq, BEq

/-- The webdriver section of `deliver_dashboard` (schedules.py lines
281-302): create the driver, navigate, locate `grid-container` with a bounded
retry, then take the screenshot inside `try: ... except WebDriverException:
... finally: destroy_webdriver(driver)`.  The try/finally wraps ONLY the
screenshot step; the element lookup sits before it, so a lookup failure
propagates without reaching `destroy_webdriver`.  The `Nat` result tags
element- (1) vs whole-page- (2) screenshot bytes. -/
def deliver_dashboard_render (env : WebEnv) : List WebEvent × Except WebErr Nat :=
  if env.create_ok = false then ([], Except.error .createFailed)
  else if env.find_element_ok = false then
    ([.created], Except.error .noSuchElement)
  else if env.element_screenshot_ok then
    ([.created, .element_shot, .destroyed], Except.ok 1)
  else if env.page_screenshot_ok then
    ([.created, .page_shot, .destroyed], Except.ok 2)
  else ([.created, .destroyed], Except.error .webDriverError)

/-- C4 evidence: `destroy_webdriver` runs exactly once on every exit path of
the screenshot step, but ZERO times when the element lookup fails after its
bounded retries — the claimed cleanup guarantee does not hold on that path
(the claim's last part, that `destroy_webdriver` itself never raises, does
hold). -/
theorem webdriver_cleanup (env : WebEnv) :
    ((deliver_dashboard_render env).1.count .destroyed =
      if env.create_ok && env.find_element_ok then 1 else 0) ∧
    ((deliver_dashboard_render ⟨true, false, true, true⟩).1.count .destroyed = 0 ∧
     (deliver_dashboard_render ⟨true, false, true, true⟩).2 =
       Except.error .noSuchElement) ∧
    (∀ d : Driver, destroy_webdriver d = Except.ok ()) := by
  refine ⟨?_, ⟨rfl, rfl⟩, ?_⟩
  · rcases env with ⟨c, f, es, ps⟩
    cases c <;> cases f <;> cases es <;> cases ps <;> rfl
  · rintro ⟨cr, qr⟩
    cases cr <;> cases qr <;> rfl

/-!
The delivery job `schedule_email_report` (schedules.py lines 475-519).  The
schedule store (`db.create_scoped_session().query(model_cls).get(id)`) is
abstracted as `lookup`; the job is embedded as the list of actions it
performs: the "Ignoring deactivated schedule" log, or exactly one
`deliver_dashboard` / `deliver_slice` call with the resolved arguments.  The
trailing `else: raise RuntimeError("Unknown report type")` is unreachable:
`ScheduleType` has exactly the two handled members, so the embedding is total
and the missing/inactive path returns normally by construction.
-/

inductive ScheduleType
  | dashboard
  | slice
  deriving DecidableEq

/-- The fields of a persisted schedule record that the job reads. -/
structure ScheduleRec where
  active : Bool
  recipients : Option String
  slack_channel : Option String
  delivery_type : EmailDeliveryType
  email_format : SliceEmailReportFormat
  deliver_as_group : Bool
  dashboard_id : Nat
  slice_id : Nat
  deriving DecidableEq

inductive JobAction
  | log_ignored
  | deliver_dashboard_call (dashboard_id : Nat)
      (recipients slack_channel : Option String)
      (delivery_type : EmailDeliveryType) (deliver_as_group : Bool)
  | deliver_slice_call (slice_id : Nat)
      (recipients slack_channel : Option String)
      (delivery_type : EmailDeliveryType)
      (email_format : SliceEmailReportFormat) (deliver_as_group : Bool)
  deriving DecidableEq

/-- Python `a or b` for optional strings: `a` wins exactly when it is truthy,
i.e. a non-None, non-empty string. -/
def pyOrStr (a b : Option String) : Option String :=
  match a with
  | none => b
  | some s => if s = "" then b else some s

/-- `schedule_email_report(task, report_type, schedule_id, recipients,
slack_channel)` (schedules.py lines 480-519) as the list of calls it makes. -/
def schedule_email_report (lookup : Nat → Option ScheduleRec)
    (report_type : ScheduleType) (schedule_id : Nat)
    (recipients slack_channel : Option String) : List JobAction :=
  match lookup schedule_id with
  | none => [.log_ignored]
  | some schedule =>
    if schedule.active = false then [.log_ignored]
    else
      let recipients := pyOrStr recipients schedule.recipients
      let slack_channel := pyOrStr slack_channel schedule.slack_channel
      match report_type with
      | .dashboard =>
        [.deliver_dashboard_call schedule.dashboard_id recipients
          slack_channel schedule.delivery_type schedule.deliver_as_group]
      | .slice =>
        [.deliver_slice_call schedule.slice_id recipients slack_channel
          schedule.delivery_type schedule.email_format
          schedule.deliver_as_group]

def isDeliveryCall : JobAction → Bool
  | .log_ignored => false
  | _ => true

/-- C8: a missing or inactive schedule makes the job log and return normally,
performing zero rendering / content-building / dispatch calls. -/
theorem schedule_email_report_disabled (lookup : Nat → Option ScheduleRec)
    (rt : ScheduleType) (sid : Nat) (ov osl : Option String)
    (h : lookup sid = none ∨
      ∃ s : ScheduleRec, lookup sid = some s ∧ s.active = false) :
    schedule_email_report lookup rt sid ov osl = [JobAction.log_ignored] ∧
    ∀ a ∈ schedule_email_report lookup rt sid ov osl,
      isDeliveryCall a = false := by
  have he : schedule_email_report lookup rt sid ov osl =
      [JobAction.log_ignored] := by
    rcases h with h | ⟨s, hs, ha⟩
    · simp [schedule_email_report, h]
    · simp [schedule_email_report, hs, ha]
  refine ⟨he, fun a hm => ?_⟩
  rw [he] at hm
  simp only [List.mem_singleton] at hm
  subst hm
  rfl

/-- Witness for C8's theorem: a missing schedule and an inactive one. -/
theorem schedule_email_report_disabled_witness :
    (schedule_email_report (fun _ => none) .dashboard 1 none none =
      [JobAction.log_ignored]) ∧
    (schedule_email_report
        (fun _ => some ⟨false, none, none, .attachment, .data, false, 3, 4⟩)
        .slice 2 (some "x@y") none = [JobAction.log_ignored]) :=
  ⟨(schedule_email_report_disabled (fun _ => none) .dashboard 1 none none
      (Or.inl rfl)).1,
   (schedule_email_report_disabled
      (fun _ => some ⟨false, none, none, .attachment, .data, false, 3, 4⟩)
      .slice 2 (some "x@y") none (Or.inr ⟨_, rfl, rfl⟩)).1⟩

def callRecipients : JobAction → Option (Option String)
  | .log_ignored => none
  | .deliver_dashboard_call _ r _ _ _ => some r
  | .deliver_slice_call _ r _ _ _ _ => some r

def callSlackChannel : JobAction → Option (Option String)
  | .log_ignored => none
  | .deliver_dashboard_call _ _ c _ _ => some c
  | .deliver_slice_call _ _ c _ _ _ => some c

/-- C10: the override arguments are resolved by truthiness, not presence —
for an active schedule, the delivery call receives the override exactly when
it is a non-empty string, and the schedule's stored value whenever the
override is None or the empty string. -/
theorem schedule_email_report_override_truthiness
    (lookup : Nat → Option ScheduleRec) (rt : ScheduleType) (sid : Nat)
    (ov osl : Option String) (s : ScheduleRec)
    (h : lookup sid = some s) (ha : s.active = true) :
    (schedule_email_report lookup rt sid ov osl).map callRecipients =
      [some (match ov with
             | some t => if t = "" then s.recipients else some t
             | none => s.recipients)] ∧
    (schedule_email_report lookup rt sid ov osl).map callSlackChannel =
      [some (match osl with
             | some t => if t = "" then s.slack_channel else some t
             | none => s.slack_channel)] := by
  cases rt <;> cases ov <;> cases osl <;>
    simp [schedule_email_report, h, ha, pyOrStr, callRecipients,
      callSlackChannel]

/-- Witness for C10's theorem: an empty-string override does not clear the
stored recipients; a non-empty override wins over the stored channel. -/
theorem schedule_email_report_override_witness :
    (schedule_email_report
        (fun _ => some ⟨true, some "stored@x", some "#stored", .attachment,
          .data, false, 3, 4⟩) .dashboard 1 (some "") (some "#ovr")).map
      callRecipients = [some (some "stored@x")] ∧
    (schedule_email_report
        (fun _ => some ⟨true, some "stored@x", some "#stored", .attachment,
          .data, false, 3, 4⟩) .dashboard 1 (some "") (some "#ovr")).map
      callSlackChannel = [some (some "#ovr")] :=
  schedule_email_report_override_truthiness
    (fun _ => some ⟨true, some "stored@x", some "#stored", .attachment,
      .data, false, 3, 4⟩) .dashboard 1 (some "") (some "#ovr") _ rfl rfl

end SupersetSchedules
